import Mathlib

/-!
Verification of the price-biomass reconciliation engine of the nca-timber
repository, as a shallow embedding in Lean 4.

DataFrames are modelled as lists of typed records; pandas operations become
list operations:
  - melt: flatMap over value columns,
  - merge how=left: for each left row, all matching right rows, or one row
    with null fill when no right row matches,
  - merge how=inner: for each left row, all matching right rows,
  - groupby: the list of distinct group keys in sorted order (pandas groupby
    sorts keys and drops rows whose key contains a null), each mapped to an
    aggregate over its member rows,
  - NaN cells: Option values (a null never equals anything in a join key).
Prices and volumes are exact rationals in the join logic; the
pre-merchantable discounting formula uses real exponentiation and is
modelled over the reals.
-/

set_option maxRecDepth 10000

/-- Python str.zfill for the nonnegative identifier strings used by the
pipeline: left-pad with the zero character to the requested width. -/
def zfill (w : Nat) (s : String) : String :=
  if w ≤ s.length then s else String.mk (List.replicate (w - s.length) '0') ++ s

/-- Mean of a list of rationals, as pandas mean over a nonempty group:
sum divided by count. -/
def qmean (vs : List ℚ) : ℚ := vs.sum / vs.length

/-- Mean with NaN skipping, as pandas groupby mean over a column that may
hold NaN cells: the mean of the non-null values, or NaN (none) when every
value of the group is null. -/
def qmeanOpt (vs : List (Option ℚ)) : Option ℚ :=
  match vs.filterMap id with
  | [] => none
  | ws => some (qmean ws)

/-- Lexicographic comparison of char lists (used to model the sorted key
order produced by pandas groupby and pivot operations). -/
def charsLe : List Char → List Char → Bool
  | [], _ => true
  | _ :: _, [] => false
  | a :: as, b :: bs => if a = b then charsLe as bs else decide (a < b)

/-- Lexicographic comparison of strings. -/
def strLe (a b : String) : Bool := charsLe a.data b.data

/-- Lexicographic comparison of string pairs. -/
def strLe2 (a b : String × String) : Bool :=
  if a.1 = b.1 then strLe a.2 b.2 else strLe a.1 b.1

/-- Lexicographic comparison of string triples. -/
def strLe3 (a b : String × String × String) : Bool :=
  if a.1 = b.1 then strLe2 a.2 b.2 else strLe a.1 b.1

/-- Lexicographic comparison of string 4-tuples. -/
def strLe4 (a b : String × String × String × String) : Bool :=
  if a.1 = b.1 then strLe3 a.2 b.2 else strLe a.1 b.1

/-- Lexicographic comparison of string 5-tuples. -/
def strLe5 (a b : String × String × String × String × String) : Bool :=
  if a.1 = b.1 then strLe4 a.2 b.2 else strLe a.1 b.1

/-- Sorted list of the distinct group keys of a key list, in first-seen
dedup order then sorted: models the index made by a pandas groupby. -/
def sortedKeys {α : Type} [DecidableEq α] (le : α → α → Bool) (l : List α) : List α :=
  List.insertionSort (fun a b => le a b = true) l.dedup

/-!
## Geographic crosswalk utilities (code/geo_crosswalks.py)

A pandas cell of the unit-code column is an integer, a string, or NaN.
format_unit_code (geo_crosswalks.py lines 67 to 88) fills NaN with 0, casts
the column to int then str, and zero-pads to width 2; a frame without the
unit-code column is returned unchanged.  Casting a non-numeric string cell
to int raises, which the embedding reports as none.
-/

/-- A dynamically typed pandas cell for the unit-code column. -/
inductive Cell where
  | num (n : Nat)
  | str (s : String)
  | na
deriving DecidableEq, Repr

/-- fillna(0) on one cell. -/
def fillnaZero : Cell → Cell
  | .na => .num 0
  | c => c

/-- astype(int) on one cell; a string cell makes the cast raise (none). -/
def cellToInt : Cell → Option Nat
  | .num n => some n
  | .na => none
  | .str _ => none

/-- A frame seen by format_unit_code: the unit-code column may be absent
(none); any other columns are untouched and modelled opaquely. -/
structure UnitFrame where
  unitcd : Option (List Cell)
  other : List (String × List Cell)
deriving DecidableEq

/-- One cell of the fillna(0).astype(int).astype(str).str.zfill(2) chain. -/
def fmtUnitCell (c : Cell) : Option Cell :=
  (cellToInt (fillnaZero c)).map (fun n => Cell.str (zfill 2 (Nat.repr n)))

/-- The chain applied to the whole column; a failing cast anywhere raises. -/
def fmtUnitCells : List Cell → Option (List Cell)
  | [] => some []
  | c :: cs =>
    match fmtUnitCell c, fmtUnitCells cs with
    | some c2, some cs2 => some (c2 :: cs2)
    | _, _ => none

/-- format_unit_code from code/geo_crosswalks.py lines 67 to 88. -/
def format_unit_code (df : UnitFrame) : Option UnitFrame :=
  match df.unitcd with
  | none => some df
  | some vs => (fmtUnitCells vs).map (fun ws => { df with unitcd := some ws })

/-!
## Product classification from diameter size class codes

South: code/south_assets.py lines 300 to 307 (np.select over three fixed
code lists, default Unknown).  Great Lakes: code/greatlakes_assets.py lines
268 to 275 (two fixed code lists, default Unknown).
-/

/-- South pre-merchantable size class codes (south_assets.py line 302). -/
def southPremerchCodes : List String := ["0001", "0002", "0003", "0004"]

/-- South pulpwood size class codes (south_assets.py line 303). -/
def southPulpwoodCodes : List String :=
  ["0005", "0006", "0007", "0008", "0009", "0010", "0011"]

/-- South sawtimber size class codes (south_assets.py line 304). -/
def southSawtimberCodes : List String :=
  ["0012", "0013", "0014", "0015", "0016", "0017", "0018", "0019", "0020", "0021"]

/-- np.select of code/south_assets.py lines 301 to 307: first matching
condition wins, default Unknown. -/
def southProductOf (code : String) : String :=
  if code ∈ southPremerchCodes then "Pre-merchantable"
  else if code ∈ southPulpwoodCodes then "Pulpwood"
  else if code ∈ southSawtimberCodes then "Sawtimber"
  else "Unknown"

/-- Great Lakes pulpwood size class codes (greatlakes_assets.py line 271). -/
def glPulpwoodCodes : List String :=
  ["0005", "0006", "0007", "0008", "0009", "0010", "0011", "0012", "0013",
   "0014", "0015", "0016", "0017", "0018", "0019"]

/-- Great Lakes sawtimber size class codes (greatlakes_assets.py line 272). -/
def glSawtimberCodes : List String :=
  ["0020", "0021", "0022", "0023", "0024", "0025", "0026", "0027", "0028", "0029"]

/-- np.select of code/greatlakes_assets.py lines 270 to 275. -/
def glProductOf (code : String) : String :=
  if code ∈ glPulpwoodCodes then "Pulpwood"
  else if code ∈ glSawtimberCodes then "Sawtimber"
  else "Unknown"

/-- A numeric size class rendered as the 4-digit zero-padded code text that
the biomass normalizer extracts from the survey column names. -/
def pad4 (n : Nat) : String := zfill 4 (Nat.repr n)

/-!
## South valuation join (src/asset/south_assets.py lines 382 to 466)

The claims cite both snapshots of merge_price_biomass_data; following the
spec design note on sequential re-definition, the embedding follows the
final snapshot (src/asset/south_assets.py), whose region join is a left
merge; the older snapshot (code/south_assets.py line 350) uses the pandas
default inner merge there, which would drop biomass rows with no region
mapping.
-/

/-- A normalized South price row (load_south_stumpage_prices output).
cuftPrice is null when every price cell of the group was empty. -/
structure SPriceRow where
  statecd : String
  stateAbbr : String
  priceRegion : String
  spclass : String
  product : String
  cuftPrice : Option ℚ
deriving DecidableEq

/-- A normalized South merchantable biomass row (load_south_merch_biomass
output). -/
structure SBioRow where
  statecd : String
  fips : String
  unitcd : String
  spcd : Nat
  spgrpcd : Nat
  spclass : String
  product : String
  volume : ℚ
deriving DecidableEq

/-- One row of the price-region crosswalk: (state, survey unit) to price
region. -/
structure RegionMapRow where
  statecd : String
  unitcd : String
  priceRegion : String
deriving DecidableEq

/-- A biomass row after the left merge with the region mapping; priceRegion
is null when the (state, survey unit) pair had no mapping row. -/
structure SBioRegionRow where
  base : SBioRow
  priceRegion : Option String
deriving DecidableEq

/-- A row of the final South valuation table (the columns selected at
src/asset/south_assets.py lines 453 to 456). -/
structure SValuationRow where
  statecd : String
  unitcd : String
  fips : String
  spcd : Nat
  spgrpcd : Nat
  spclass : String
  product : String
  volume : ℚ
  cuftprice : Option ℚ
  value : Option ℚ
deriving DecidableEq

/-- Whether a region mapping row matches a biomass row on (statecd, unitcd). -/
def regionKeyMatch (br : SBioRow) (mr : RegionMapRow) : Bool :=
  mr.statecd == br.statecd && mr.unitcd == br.unitcd

/-- Left merge of biomass with the region mapping on (statecd, unitcd)
(src/asset/south_assets.py line 411): every biomass row is kept; an
unmatched row gets a null priceRegion, a matched row one output row per
matching mapping row. -/
def regionLeftJoin (biomass : List SBioRow) (regions : List RegionMapRow) :
    List SBioRegionRow :=
  biomass.flatMap (fun br =>
    match regions.filter (regionKeyMatch br) with
    | [] => [{ base := br, priceRegion := none }]
    | ms => ms.map (fun mr => { base := br, priceRegion := some mr.priceRegion }))

/-- The merchantable product mask of src/asset/south_assets.py line 423. -/
def isMerch (p : String) : Bool := p == "Pulpwood" || p == "Sawtimber"

/-- Whether a price row matches a region-annotated biomass row on
(statecd, priceRegion, spclass, product); a null priceRegion matches no
price row, as NaN join keys match nothing in pandas. -/
def priceKeyMatch (br : SBioRegionRow) (pr : SPriceRow) : Bool :=
  pr.statecd == br.base.statecd && some pr.priceRegion == br.priceRegion &&
    pr.spclass == br.base.spclass && pr.product == br.base.product

/-- Assemble one output valuation row from a biomass row and the price
found for it (none when unmatched or when the matched price cell is NaN);
value = volume times price, with null propagating
(src/asset/south_assets.py lines 440 to 447). -/
def mkValuation (br : SBioRegionRow) (price : Option ℚ) : SValuationRow :=
  { statecd := br.base.statecd, unitcd := br.base.unitcd, fips := br.base.fips,
    spcd := br.base.spcd, spgrpcd := br.base.spgrpcd, spclass := br.base.spclass,
    product := br.base.product, volume := br.base.volume,
    cuftprice := price, value := price.map (fun c => br.base.volume * c) }

/-- Left merge with the price table on (statecd, priceRegion, spclass,
product) = (..., Product) (src/asset/south_assets.py lines 430 to 436),
followed by the value computation and final column selection. -/
def priceLeftJoin (biomass : List SBioRegionRow) (prices : List SPriceRow) :
    List SValuationRow :=
  biomass.flatMap (fun br =>
    match prices.filter (priceKeyMatch br) with
    | [] => [mkValuation br none]
    | ms => ms.map (fun pr => mkValuation br pr.cuftPrice))

/-- merge_price_biomass_data from src/asset/south_assets.py lines 382 to
466: attach price regions by left merge, keep only Pulpwood and Sawtimber
rows, left merge prices, compute value. -/
def merge_price_biomass_data (prices : List SPriceRow) (biomass : List SBioRow)
    (regions : List RegionMapRow) : List SValuationRow :=
  priceLeftJoin
    ((regionLeftJoin biomass regions).filter (fun r => isMerch r.base.product))
    prices

/-- The join key of a South price row. -/
def sPriceKey (pr : SPriceRow) : String × String × String × String :=
  (pr.statecd, pr.priceRegion, pr.spclass, pr.product)

/-- The join key of a region mapping row. -/
def regionMapKey (mr : RegionMapRow) : String × String :=
  (mr.statecd, mr.unitcd)

/-- The single output row the region left merge produces for one biomass row
when the mapping has at most one row per (statecd, unitcd) key. -/
def regionOne (regions : List RegionMapRow) (br : SBioRow) : SBioRegionRow :=
  match regions.filter (regionKeyMatch br) with
  | [] => { base := br, priceRegion := none }
  | mr :: _ => { base := br, priceRegion := some mr.priceRegion }

/-- The single output row the price left merge produces for one biomass row
when the price table has at most one row per join key. -/
def priceOne (prices : List SPriceRow) (br : SBioRegionRow) : SValuationRow :=
  match prices.filter (priceKeyMatch br) with
  | [] => mkValuation br none
  | pr :: _ => mkValuation br pr.cuftPrice

/-- Concrete biomass input for the C1 counterexample: one Pulpwood row for
state 01, survey unit 01. -/
def c1cexBiomass : List SBioRow :=
  [⟨"01", "01001", "01", 131, 2, "Pine", "Pulpwood", 500⟩]

/-- Concrete region mapping for the C1 counterexample: state 01 survey unit
01 is listed under two price regions. -/
def c1cexRegions : List RegionMapRow :=
  [⟨"01", "01", "01"⟩, ⟨"01", "01", "02"⟩]

/-!
## South price normalizer (code/south_assets.py lines 66 to 117)

The raw wide CSV has three id columns followed by value columns whose names
encode product abbreviation (chars 0 to 2), state abbreviation (chars 3 to
4) and price region (chars 5 on).  melt stacks the value columns column by
column; the groupby on (statecd, stateAbbr, priceRegion, spclass, product)
averages prices, skipping NaN cells and dropping rows whose statecd is null
(a state abbreviation outside STATE_FIPS); the final step divides by the
40 cubic feet per ton factor of convert_price_ton_to_cubic_feet.
-/

/-- STATE_FIPS from code/geo_crosswalks.py lines 28 to 32. -/
def STATE_FIPS : List (String × String) :=
  [("AL", "01"), ("AR", "05"), ("FL", "12"), ("GA", "13"), ("LA", "22"),
   ("MS", "28"), ("NC", "37"), ("SC", "45"), ("TN", "47"), ("TX", "48"),
   ("VA", "51"), ("MI", "26"), ("MN", "27"), ("WI", "55")]

/-- Series.map over the STATE_FIPS dict: none models the NaN produced for an
unknown state abbreviation. -/
def stateFipsLookup (ab : String) : Option String :=
  (STATE_FIPS.find? (fun p => p.1 == ab)).map (fun p => p.2)

/-- One id row of the raw wide South price CSV (the first three columns:
year, species class label, and a further id column). -/
structure SouthRawIdRow where
  year : Int
  sptype : String
  extraId : String
deriving DecidableEq

/-- The raw wide South price table: id rows plus value columns; each value
column has a composite name and one optional price cell per id row. -/
structure SouthRawPrices where
  idRows : List SouthRawIdRow
  valueCols : List (String × List (Option ℚ))
deriving DecidableEq

/-- Product abbreviation: the first three characters of a value column name
(south_assets.py line 89). -/
def colProductAbbr (cn : String) : String := String.mk (cn.data.take 3)

/-- State abbreviation: characters 3 to 4 of a value column name, upper
cased (south_assets.py line 87). -/
def colStateAbbr (cn : String) : String :=
  String.mk (((cn.data.drop 3).take 2).map Char.toUpper)

/-- Price region: characters 5 on of a value column name, zero-filled to 2
(south_assets.py line 88). -/
def colPriceRegion (cn : String) : String := zfill 2 (String.mk (cn.data.drop 5))

/-- The replace map of south_assets.py lines 92 to 96; an unmapped
abbreviation passes through unchanged. -/
def productReplace (p : String) : String :=
  if p = "saw" then "Sawtimber"
  else if p = "plp" then "Pulpwood"
  else if p = "pre" then "Pre-merchantable"
  else p

/-- The replace map of south_assets.py lines 99 to 102. -/
def typeReplace (t : String) : String :=
  if t = "pine" then "Pine" else if t = "oak" then "Oak" else t

/-- One row of the melted long South price frame. -/
structure SouthMeltRow where
  statecd : Option String
  stateAbbr : String
  priceRegion : String
  spclass : String
  product : String
  price : Option ℚ
deriving DecidableEq

/-- melt of south_assets.py lines 79 to 84 followed by the column-name
parsing and replaces of lines 87 to 106: pandas melt stacks one value
column at a time. -/
def southMelt (raw : SouthRawPrices) : List SouthMeltRow :=
  raw.valueCols.flatMap (fun col =>
    (raw.idRows.zip col.2).map (fun rv =>
      { statecd := stateFipsLookup (colStateAbbr col.1),
        stateAbbr := colStateAbbr col.1,
        priceRegion := colPriceRegion col.1,
        spclass := typeReplace rv.1.sptype,
        product := productReplace (colProductAbbr col.1),
        price := rv.2 }))

/-- The groupby key of south_assets.py lines 109 to 111. -/
def sMeltKey (r : SouthMeltRow) : String × String × String × String × String :=
  (r.statecd.getD "", r.stateAbbr, r.priceRegion, r.spclass, r.product)

/-- load_south_stumpage_prices from code/south_assets.py lines 66 to 117:
melt, parse, group-average, and convert dollars per ton to dollars per
cubic foot by dividing by 40. -/
def load_south_stumpage_prices (raw : SouthRawPrices) : List SPriceRow :=
  let melted := (southMelt raw).filter (fun r => r.statecd.isSome)
  (sortedKeys strLe5 (melted.map sMeltKey)).map (fun k =>
    { statecd := k.1, stateAbbr := k.2.1, priceRegion := k.2.2.1,
      spclass := k.2.2.2.1, product := k.2.2.2.2,
      cuftPrice := (qmeanOpt ((melted.filter (fun r => sMeltKey r == k)).map
        (fun r => r.price))).map (fun p => p / 40) })

/-!
## Great Lakes price normalizer (code/greatlakes_assets.py lines 60 to 165)
-/

/-- One raw row of the Great Lakes vendor price sheet.  The region label is
kept as a character list for the fixed-position parsing; year is the year
of the Period End Date after to_datetime with coerce (none when parsing
fails); perUnit is the raw dollars-per-unit price cell. -/
structure GLRawRow where
  region : List Char
  market : String
  year : Option Int
  species : String
  product : String
  perUnit : Option ℚ
  units : String
deriving DecidableEq

/-- The state FIPS dict of greatlakes_assets.py line 87; an abbreviation
outside the dict maps to NaN. -/
def glStateFips (s : String) : Option String :=
  if s = "MN" then some "27"
  else if s = "WI" then some "55"
  else if s = "MI" then some "26"
  else none

/-- A raw row after the column derivations of greatlakes_assets.py lines
79 to 104. -/
structure GLAnnRow where
  stateAbbr : String
  priceRegion : Option String
  statecd : Option String
  year : Option Int
  species : String
  product : String
  perUnit : Option ℚ
  cuftPrice : Option ℚ
deriving DecidableEq

/-- Column derivations of greatlakes_assets.py lines 79 to 104: split the
region label at the first hyphen (a label with no hyphen gets a null price
region), zero-fill the price region to 2, map the state abbreviation to
FIPS, and convert the price to dollars per cubic foot: divide by 128 for
cord units, by 12 for mbf units, and pass any other unit through. -/
def glAnnotate (r : GLRawRow) : GLAnnRow :=
  let pre := r.region.takeWhile (fun c => c != '-')
  { stateAbbr := String.mk pre,
    priceRegion := if pre.length = r.region.length then none
      else some (zfill 2 (String.mk (r.region.drop (pre.length + 1)))),
    statecd := glStateFips (String.mk pre),
    year := r.year,
    species := r.species,
    product := r.product,
    perUnit := r.perUnit,
    cuftPrice := r.perUnit.map (fun p =>
      if r.units = "cord" then p / 128 else if r.units = "mbf" then p / 12 else p) }

/-- The rows that reach the first groupby of greatlakes_assets.py line 113:
the row filters of lines 73 (region label length not equal to 2) and 76
(Stumpage market), the dropna on price and year of line 94, and the groupby
itself, which drops every row whose statecd or priceRegion key is null. -/
def glValidRows (l : List GLRawRow) : List GLAnnRow :=
  ((((l.filter (fun r => r.region.length != 2)).filter
        (fun r => r.market == "Stumpage")).map glAnnotate).filter
      (fun r => r.perUnit.isSome && r.year.isSome)).filter
    (fun r => r.statecd.isSome && r.priceRegion.isSome)

/-- The first groupby key (statecd, priceRegion, Species, Product). -/
def glKey4 (r : GLAnnRow) : String × String × String × String :=
  (r.statecd.getD "", r.priceRegion.getD "", r.species, r.product)

/-- A row of the grouped long Great Lakes price frame (line 113). -/
structure GLG7Row where
  statecd : String
  priceRegion : String
  species : String
  product : String
  cuftPrice : ℚ
deriving DecidableEq

/-- The groupby mean of greatlakes_assets.py line 113. -/
def glGrouped (vr : List GLAnnRow) : List GLG7Row :=
  (sortedKeys strLe4 (vr.map glKey4)).map (fun k =>
    { statecd := k.1, priceRegion := k.2.1, species := k.2.2.1, product := k.2.2.2,
      cuftPrice := qmean ((vr.filter (fun r => glKey4 r == k)).filterMap
        (fun r => r.cuftPrice)) })

/-- The species crosswalk of greatlakes_assets.py lines 126 to 140; per the
fillna of line 143, an unmapped label passes through unchanged. -/
def glSpeciesCrosswalk (s : String) : String :=
  if s = "Maple Unspecified" then "Maple"
  else if s = "Mixed Hdwd" then "Hardwood"
  else if s = "Mixed Sftwd" then "Pine"
  else if s = "Other Hdwd" then "Hardwood"
  else if s = "Other Sfwd" then "Pine"
  else if s = "Oak Unspecified" then "Oak"
  else if s = "Other Hardwood" then "Hardwood"
  else if s = "Other Softwood" then "Softwood"
  else if s = "Pine Unspecified" then "Pine"
  else if s = "Spruce Unspecified" then "Spruce"
  else if s = "Spruce/Fir" then "Spruce"
  else if s = "White Birch" then "Paper Birch"
  else if s = "Scrub Oak" then "Oak"
  else s

/-- The lower casing of greatlakes_assets.py line 153. -/
def lowerStr (s : String) : String := String.mk (s.data.map Char.toLower)

/-- A pivoted row, one per (statecd, priceRegion, species), after the
fillna(0) of line 123 and the species crosswalk of line 142: a product
price missing for the key has been replaced by the number 0. -/
structure GLPivotRow where
  statecd : String
  priceRegion : String
  mergedSpecies : String
  pulpwood : ℚ
  sawtimber : ℚ
deriving DecidableEq

/-- The pivot index key (statecd, priceRegion, priceSpecies). -/
def glKey3 (g : GLG7Row) : String × String × String :=
  (g.statecd, g.priceRegion, g.species)

/-- The pivot of greatlakes_assets.py lines 116 to 120, the fillna(0) of
line 123, and the species crosswalk of lines 126 to 144.  The input comes
from a groupby on (statecd, priceRegion, species, product), so each
(index key, product) pair occurs at most once and find? has at most one
match. -/
def glPivot (gs : List GLG7Row) : List GLPivotRow :=
  (sortedKeys strLe3 (gs.map glKey3)).map (fun k =>
    { statecd := k.1, priceRegion := k.2.1,
      mergedSpecies := glSpeciesCrosswalk k.2.2,
      pulpwood := ((gs.find? (fun g => glKey3 g == k && g.product == "Pulpwood")).map
        (fun g => g.cuftPrice)).getD 0,
      sawtimber := ((gs.find? (fun g => glKey3 g == k && g.product == "Sawtimber")).map
        (fun g => g.cuftPrice)).getD 0 })

/-- A normalized Great Lakes price row (load_gl_stumpage_prices output). -/
structure GLPriceRow where
  statecd : String
  priceRegion : String
  species : String
  product : String
  cuftPrice : ℚ
deriving DecidableEq

/-- The second groupby key (statecd, priceRegion, mergedSpecies). -/
def glKeyM (p : GLPivotRow) : String × String × String :=
  (p.statecd, p.priceRegion, p.mergedSpecies)

/-- load_gl_stumpage_prices from code/greatlakes_assets.py lines 60 to 165:
filters, unit conversion, group-average, pivot with zero fill, species
crosswalk, second group-average (lines 147 to 150), lower casing, and the
melt back to long form, Pulpwood rows before Sawtimber rows matching the
pivoted column order.  The agg dict of lines 147 to 150 names the Pulpwood
and Sawtimber columns; when the pivot produced no such column (no row with
that product survived the first groupby) the agg raises a KeyError, which
the embedding reports as an error value. -/
def load_gl_stumpage_prices (l : List GLRawRow) : Except String (List GLPriceRow) :=
  let vr := glValidRows l
  let gs := glGrouped vr
  let piv := glPivot gs
  let keysM := sortedKeys strLe3 (piv.map glKeyM)
  let agg := keysM.map (fun k =>
    (k.1, k.2.1, lowerStr k.2.2,
     qmean ((piv.filter (fun p => glKeyM p == k)).map (fun p => p.pulpwood)),
     qmean ((piv.filter (fun p => glKeyM p == k)).map (fun p => p.sawtimber))))
  if "Pulpwood" ∈ gs.map (fun g => g.product) then
    if "Sawtimber" ∈ gs.map (fun g => g.product) then
      .ok (agg.map (fun a => ⟨a.1, a.2.1, a.2.2.1, "Pulpwood", a.2.2.2.1⟩) ++
           agg.map (fun a => ⟨a.1, a.2.1, a.2.2.1, "Sawtimber", a.2.2.2.2⟩))
    else .error "KeyError: Sawtimber"
  else .error "KeyError: Pulpwood"

/-- The filter stated by the specification for the Great Lakes normalizer:
region label longer than 2 characters and Stumpage market. -/
def glGoodRow (r : GLRawRow) : Bool :=
  decide (2 < r.region.length) && (r.market == "Stumpage")

/-- Concrete input for the C5 counterexample: two Stumpage rows of region
MN-1, species a with only a Pulpwood price and species b with only a
Sawtimber price. -/
def glCexRows : List GLRawRow :=
  [⟨['M', 'N', '-', '1'], "Stumpage", some 2020, "a", "Pulpwood", some 5, "x"⟩,
   ⟨['M', 'N', '-', '1'], "Stumpage", some 2020, "b", "Sawtimber", some 6, "x"⟩]

/-!
## Great Lakes valuation join (code/greatlakes_assets.py lines 287 to 360)
-/

/-- A filtered Great Lakes biomass row (filter_biomass_by_species output
restricted to the columns the join uses). -/
structure GLBioRow where
  statecd : String
  unitcd : String
  fips : String
  spcd : Nat
  spgrpcd : Nat
  spclass : String
  product : String
  volume : ℚ
deriving DecidableEq

/-- The biomass groupby key of greatlakes_assets.py lines 310 to 312. -/
def glMergeKey (p : GLBioRow × String) :
    String × String × String × String × Nat × Nat :=
  (p.1.statecd, p.2, p.1.spclass, p.1.product, p.1.spcd, p.1.spgrpcd)

/-- Lexicographic comparison for the mixed string and numeric groupby key
of the Great Lakes join. -/
def glMergeKeyLe (a b : String × String × String × String × Nat × Nat) : Bool :=
  if a.1 = b.1 then
    if a.2.1 = b.2.1 then
      if a.2.2.1 = b.2.2.1 then
        if a.2.2.2.1 = b.2.2.2.1 then
          if a.2.2.2.2.1 = b.2.2.2.2.1 then decide (a.2.2.2.2.2 ≤ b.2.2.2.2.2)
          else decide (a.2.2.2.2.1 ≤ b.2.2.2.2.1)
        else strLe a.2.2.2.1 b.2.2.2.1
      else strLe a.2.2.1 b.2.2.1
    else strLe a.2.1 b.2.1
  else strLe a.1 b.1

/-- A grouped Great Lakes biomass row (volume summed per key). -/
structure GLGroupedRow where
  statecd : String
  priceRegion : String
  spclass : String
  product : String
  spcd : Nat
  spgrpcd : Nat
  volume : ℚ
deriving DecidableEq

/-- A row of the Great Lakes valuation table. -/
structure GLValRow where
  statecd : String
  priceRegion : String
  spclass : String
  product : String
  spcd : Nat
  spgrpcd : Nat
  volume : ℚ
  cuftPrice : Option ℚ
  value : Option ℚ
deriving DecidableEq

/-- The columns of the normalized Great Lakes price table, as produced by
load_gl_stumpage_prices: the species column is named species after the
rename at greatlakes_assets.py line 163. -/
def glPriceColumns : List String :=
  ["statecd", "priceRegion", "species", "product", "cuftPrice"]

/-- merge_price_biomass_data from code/greatlakes_assets.py lines 287 to
360: inner merge of biomass with the region mapping (line 306, pandas
default inner join), groupby sum of volume (lines 310 to 312), the spclass
replace of lines 323 to 326, the left merge with prices (lines 330 to 336),
then the fallback fill of lines 338 to 349, which groups the price table by
the spclass and product columns.  The price table names its species column
species, not spclass, so that groupby raises a KeyError; the embedding
checks the grouped columns against glPriceColumns and reports the error.
The remaining code (average fill, value computation, final column
selection) is unreachable. -/
def merge_price_biomass_data_gl (prices : List GLPriceRow)
    (biomass : List GLBioRow) (regions : List RegionMapRow) :
    Except String (List GLValRow) :=
  let b1 := biomass.flatMap (fun br =>
    (regions.filter (fun mr => mr.statecd == br.statecd && mr.unitcd == br.unitcd)).map
      (fun mr => (br, mr.priceRegion)))
  let keys := sortedKeys glMergeKeyLe (b1.map glMergeKey)
  let grouped : List GLGroupedRow := keys.map (fun k =>
    { statecd := k.1, priceRegion := k.2.1, spclass := k.2.2.1,
      product := k.2.2.2.1, spcd := k.2.2.2.2.1, spgrpcd := k.2.2.2.2.2,
      volume := ((b1.filter (fun p => glMergeKey p == k)).map
        (fun p => p.1.volume)).sum })
  let grouped2 := grouped.map (fun g =>
    { g with spclass := if g.spclass = "Softwood" then "Pine" else g.spclass })
  let joined := grouped2.flatMap (fun g =>
    match prices.filter (fun pr => pr.statecd == g.statecd &&
        pr.priceRegion == g.priceRegion && pr.species == g.spclass &&
        pr.product == g.product) with
    | [] => [(g, (none : Option ℚ))]
    | ms => ms.map (fun pr => (g, some pr.cuftPrice)))
  if "spclass" ∈ glPriceColumns ∧ "product" ∈ glPriceColumns then
    .ok (joined.map (fun gp =>
      { statecd := gp.1.statecd, priceRegion := gp.1.priceRegion,
        spclass := gp.1.spclass, product := gp.1.product, spcd := gp.1.spcd,
        spgrpcd := gp.1.spgrpcd, volume := gp.1.volume, cuftPrice := gp.2,
        value := gp.2.map (fun c => gp.1.volume * c) }))
  else
    .error "KeyError: spclass"

/-!
## Pre-merchantable price extrapolator
(code/south_assets.py lines 120 to 168; the same function appears at
src/asset/south_assets.py lines 167 to 215)

The discounting arithmetic uses a real exponent, so this part of the
embedding works over the real numbers.
-/

noncomputable section

/-- An input price row of calculate_premerchantable_prices, with the price
as a real number. -/
structure PmPriceRow where
  statecd : String
  stateAbbr : String
  priceRegion : String
  spclass : String
  product : String
  cuftPrice : ℝ

/-- The Pine and Pulpwood filter of south_assets.py lines 138 to 141. -/
def isPinePulpwood (r : PmPriceRow) : Bool :=
  r.spclass == "Pine" && r.product == "Pulpwood"

/-- The pivot index key (statecd, stateAbbr, priceRegion) of south_assets.py
lines 144 to 148. -/
def pmKey (r : PmPriceRow) : String × String × String :=
  (r.statecd, r.stateAbbr, r.priceRegion)

/-- Mean of a list of reals (pivot_table aggregates with the mean). -/
def rmean (vs : List ℝ) : ℝ := vs.sum / vs.length

/-- The discounting formula of south_assets.py lines 150 to 158:
pre-merchantable price = pulpwood price / (1 + r) ^ (Am - age), with
discount rate r = 0.05 and merchantable age Am = 15 years. -/
def premerchCuftPrice (pine : ℝ) (age : ℝ) : ℝ :=
  pine / (1 + 0.05) ^ ((15 : ℝ) - age)

/-- The four pre-merchantable size classes with their assumed ages, in the
melt order of south_assets.py lines 160 to 166 (value columns 0004, 0003,
0002, 0001). -/
def premerchAges : List (String × ℝ) :=
  [("0004", 12.264), ("0003", 7.5), ("0002", 2.736), ("0001", 0.722)]

/-- An output row of calculate_premerchantable_prices. -/
structure PmOutRow where
  statecd : String
  stateAbbr : String
  priceRegion : String
  sizeclass : String
  cuftPrice : ℝ

/-- The Pine and Pulpwood price rows feeding the pivot. -/
def pmFiltered (l : List PmPriceRow) : List PmPriceRow := l.filter isPinePulpwood

/-- The sorted distinct pivot index keys. -/
def pmKeys (l : List PmPriceRow) : List (String × String × String) :=
  sortedKeys strLe3 ((pmFiltered l).map pmKey)

/-- One melted output row: the discounted price for one size class and one
pivot key, the pivot cell being the mean Pine Pulpwood price of the key. -/
def pmMkRow (l : List PmPriceRow) (sa : String × ℝ)
    (k : String × String × String) : PmOutRow :=
  { statecd := k.1, stateAbbr := k.2.1, priceRegion := k.2.2, sizeclass := sa.1,
    cuftPrice := premerchCuftPrice
      (rmean (((pmFiltered l).filter (fun r2 => pmKey r2 == k)).map
        (fun r2 => r2.cuftPrice))) sa.2 }

/-- calculate_premerchantable_prices from code/south_assets.py lines 120 to
168: filter to Pine Pulpwood rows, pivot to one row per (statecd,
stateAbbr, priceRegion) holding the mean Pine price, compute the four
discounted size class prices, and melt back to long form, the 0004 block
first down to the 0001 block. -/
def calculate_premerchantable_prices (l : List PmPriceRow) : List PmOutRow :=
  premerchAges.flatMap (fun sa => (pmKeys l).map (pmMkRow l sa))

end

/-!
## Theorems
-/

/-- Helper: length of zero-padded decimal form of a small code. -/
theorem zfill_two_repr_length : ∀ n < 100, (zfill 2 (Nat.repr n)).length = 2 := by decide

/-- Helper: the cell chain on allowed cells. -/
theorem fmtUnitCells_ok (vs : List Cell)
    (h : ∀ c ∈ vs, c = .na ∨ ∃ n, n ≤ 99 ∧ c = .num n) :
    ∃ ws, fmtUnitCells vs = some ws ∧
      List.Forall₂ (fun c c2 =>
        (∃ s, c2 = Cell.str s ∧ s.length = 2) ∧
        (c = Cell.na → c2 = Cell.str "00") ∧
        (∀ n, c = Cell.num n → c2 = Cell.str (zfill 2 (Nat.repr n)))) vs ws := by
  induction vs with
  | nil => exact ⟨[], rfl, List.Forall₂.nil⟩
  | cons c cs ih =>
    obtain ⟨ws, hws, hfa⟩ := ih (fun x hx => h x (List.mem_cons_of_mem _ hx))
    rcases h c (List.mem_cons_self _ _) with hna | ⟨n, hn, hnum⟩
    · subst hna
      refine ⟨Cell.str "00" :: ws, ?_, ?_⟩
      · simp [fmtUnitCells, hws]; rfl
      · refine List.Forall₂.cons ⟨⟨"00", rfl, rfl⟩, fun _ => rfl, ?_⟩ hfa
        intro n hn; cases hn
    · subst hnum
      refine ⟨Cell.str (zfill 2 (Nat.repr n)) :: ws, ?_, ?_⟩
      · simp [fmtUnitCells, hws, fmtUnitCell, fillnaZero, cellToInt]
      · refine List.Forall₂.cons ⟨⟨zfill 2 (Nat.repr n), rfl,
          zfill_two_repr_length n (Nat.lt_succ_of_le hn)⟩, ?_, ?_⟩ hfa
        · intro hc; cases hc
        · intro m hm; cases hm; rfl

/-- Claim C10: for a table whose unit-code column holds integer codes 0 to 99
or missing entries, format_unit_code yields a table in which every unit code
is a 2-character zero-padded decimal string, missing entries becoming "00"
(filled with 0 before formatting, not dropped and not left null); when the
unit-code column is absent the table is returned unchanged. -/
theorem C10_format_unit_code (df : UnitFrame) :
    (df.unitcd = none → format_unit_code df = some df) ∧
    (∀ vs, df.unitcd = some vs →
      (∀ c ∈ vs, c = .na ∨ ∃ n, n ≤ 99 ∧ c = .num n) →
      ∃ ws, format_unit_code df = some { df with unitcd := some ws } ∧
        List.Forall₂ (fun c c2 =>
          (∃ s, c2 = Cell.str s ∧ s.length = 2) ∧
          (c = Cell.na → c2 = Cell.str "00") ∧
          (∀ n, c = Cell.num n → c2 = Cell.str (zfill 2 (Nat.repr n)))) vs ws) := by
  constructor
  · intro h; simp [format_unit_code, h]
  · intro vs hvs h
    obtain ⟨ws, hws, hfa⟩ := fmtUnitCells_ok vs h
    exact ⟨ws, by simp [format_unit_code, hvs, hws], hfa⟩

/-- Witness for C10 at a concrete frame: the column [5, NaN, 99] becomes
["05", "00", "99"]. -/
theorem C10_format_unit_code_witness :
    (∀ c ∈ [Cell.num 5, Cell.na, Cell.num 99], c = .na ∨ ∃ n, n ≤ 99 ∧ c = .num n) ∧
    (∃ ws, format_unit_code ⟨some [Cell.num 5, Cell.na, Cell.num 99], []⟩ =
        some { (⟨some [Cell.num 5, Cell.na, Cell.num 99], []⟩ : UnitFrame) with
                 unitcd := some ws } ∧
      List.Forall₂ (fun c c2 =>
        (∃ s, c2 = Cell.str s ∧ s.length = 2) ∧
        (c = Cell.na → c2 = Cell.str "00") ∧
        (∀ n, c = Cell.num n → c2 = Cell.str (zfill 2 (Nat.repr n))))
        [Cell.num 5, Cell.na, Cell.num 99] ws) :=
  ⟨by decide,
   (C10_format_unit_code ⟨some [Cell.num 5, Cell.na, Cell.num 99], []⟩).2
     [Cell.num 5, Cell.na, Cell.num 99] rfl (by decide)⟩

/-- Counterexample for C8 as stated: the South classifier maps size class
code 22, which is 12 or above, to Unknown rather than Sawtimber (np.select
lists only codes 12 through 21 as Sawtimber). -/
theorem C8_code22_unknown_cex :
    southProductOf (pad4 22) = "Unknown" ∧ ("Unknown" : String) ≠ "Sawtimber" := by
  decide

/-- Claim C8 (amended): product classification is a deterministic total
function of the size class code: every code maps to exactly one of
Pre-merchantable, Pulpwood, Sawtimber, Unknown (the three South code lists
are pairwise disjoint), and for the South codes 1 to 4 give Pre-merchantable,
5 to 11 give Pulpwood, 12 to 21 give Sawtimber, while codes beyond the listed
range (such as 22) give Unknown; for the Great Lakes codes 5 to 19 give
Pulpwood and 20 to 29 give Sawtimber (sawtimber cutoff at 20 inches). -/
theorem C8_product_classification_amended :
    (∀ code : String,
      southProductOf code = "Pre-merchantable" ∨ southProductOf code = "Pulpwood" ∨
      southProductOf code = "Sawtimber" ∨ southProductOf code = "Unknown") ∧
    (∀ code : String,
      glProductOf code = "Pulpwood" ∨ glProductOf code = "Sawtimber" ∨
      glProductOf code = "Unknown") ∧
    (∀ code : String, ¬ (code ∈ southPremerchCodes ∧ code ∈ southPulpwoodCodes)) ∧
    (∀ code : String, ¬ (code ∈ southPremerchCodes ∧ code ∈ southSawtimberCodes)) ∧
    (∀ code : String, ¬ (code ∈ southPulpwoodCodes ∧ code ∈ southSawtimberCodes)) ∧
    (∀ code : String, ¬ (code ∈ glPulpwoodCodes ∧ code ∈ glSawtimberCodes)) ∧
    (∀ n, 1 ≤ n → n ≤ 4 → southProductOf (pad4 n) = "Pre-merchantable") ∧
    (∀ n, 5 ≤ n → n ≤ 11 → southProductOf (pad4 n) = "Pulpwood") ∧
    (∀ n, 12 ≤ n → n ≤ 21 → southProductOf (pad4 n) = "Sawtimber") ∧
    southProductOf (pad4 22) = "Unknown" ∧
    (∀ n, 5 ≤ n → n ≤ 19 → glProductOf (pad4 n) = "Pulpwood") ∧
    (∀ n, 20 ≤ n → n ≤ 29 → glProductOf (pad4 n) = "Sawtimber") := by
  refine ⟨?_, ?_, ?_, ?_, ?_, ?_, ?_, ?_, ?_, ?_, ?_, ?_⟩
  · intro code; unfold southProductOf
    split
    · exact Or.inl rfl
    · split
      · exact Or.inr (Or.inl rfl)
      · split
        · exact Or.inr (Or.inr (Or.inl rfl))
        · exact Or.inr (Or.inr (Or.inr rfl))
  · intro code; unfold glProductOf
    split
    · exact Or.inl rfl
    · split
      · exact Or.inr (Or.inl rfl)
      · exact Or.inr (Or.inr rfl)
  · intro code h; rcases h with ⟨h1, h2⟩; fin_cases h1 <;> simp_all [southPulpwoodCodes]
  · intro code h; rcases h with ⟨h1, h2⟩; fin_cases h1 <;> simp_all [southSawtimberCodes]
  · intro code h; rcases h with ⟨h1, h2⟩; fin_cases h1 <;> simp_all [southSawtimberCodes]
  · intro code h; rcases h with ⟨h1, h2⟩; fin_cases h1 <;> simp_all [glSawtimberCodes]
  · intro n h1 h2; interval_cases n <;> decide
  · intro n h1 h2; interval_cases n <;> decide
  · intro n h1 h2; interval_cases n <;> decide
  · decide
  · intro n h1 h2; interval_cases n <;> decide
  · intro n h1 h2; interval_cases n <;> decide

/-- Witness for C8 at concrete codes: 8 is Pulpwood and 13 is Sawtimber in
the South, 20 is Sawtimber in the Great Lakes. -/
theorem C8_product_classification_witness :
    southProductOf (pad4 8) = "Pulpwood" ∧ southProductOf (pad4 13) = "Sawtimber" ∧
    glProductOf (pad4 20) = "Sawtimber" :=
  ⟨C8_product_classification_amended.2.2.2.2.2.2.2.1 8 (by decide) (by decide),
   C8_product_classification_amended.2.2.2.2.2.2.2.2.1 13 (by decide) (by decide),
   C8_product_classification_amended.2.2.2.2.2.2.2.2.2.2.2 20 (by decide) (by decide)⟩

/-- Helper: a filter whose accepted elements all share one image under a key
map that is injective on the list keeps at most one element. -/
theorem filter_nil_or_single {α β : Type} [DecidableEq β]
    (l : List α) (q : α → Bool) (f : α → β) (k : β)
    (hnd : (l.map f).Nodup) (hk : ∀ x ∈ l, q x = true → f x = k) :
    l.filter q = [] ∨ ∃ x, l.filter q = [x] := by
  induction l with
  | nil => exact Or.inl rfl
  | cons a t ih =>
    rw [List.map_cons, List.nodup_cons] at hnd
    by_cases hqa : q a = true
    · right
      refine ⟨a, ?_⟩
      have ht : t.filter q = [] := by
        rw [List.filter_eq_nil_iff]
        intro y hy hqy
        refine hnd.1 ?_
        have hay : f a = f y := by
          rw [hk a (List.mem_cons_self _ _) hqa, hk y (List.mem_cons_of_mem _ hy) hqy]
        rw [hay]
        exact List.mem_map_of_mem f hy
      simp [List.filter_cons, hqa, ht]
    · have := ih hnd.2 (fun x hx hqx => hk x (List.mem_cons_of_mem _ hx) hqx)
      simpa [List.filter_cons, hqa] using this

/-- Helper: the base biomass row is preserved by regionOne. -/
theorem regionOne_base (regions : List RegionMapRow) (br : SBioRow) :
    (regionOne regions br).base = br := by
  unfold regionOne
  split <;> rfl

/-- Helper: under a key-unique mapping, the region left merge produces
exactly one output row per biomass row, in input order. -/
theorem regionLeftJoin_eq_map (biomass : List SBioRow) (regions : List RegionMapRow)
    (hm : (regions.map regionMapKey).Nodup) :
    regionLeftJoin biomass regions = biomass.map (regionOne regions) := by
  induction biomass with
  | nil => rfl
  | cons br t ih =>
    have hone := filter_nil_or_single regions (regionKeyMatch br) regionMapKey
      (br.statecd, br.unitcd) hm (fun mr _ hq => by
        unfold regionKeyMatch at hq
        simp only [Bool.and_eq_true, beq_iff_eq] at hq
        simp [regionMapKey, hq.1, hq.2])
    rw [regionLeftJoin, List.flatMap_cons]
    rw [regionLeftJoin] at ih
    rw [ih]
    rcases hone with h | ⟨mr, h⟩ <;> simp [regionOne, h]

/-- Helper: under a key-unique price table, the price left merge produces
exactly one output row per biomass row, in input order. -/
theorem priceLeftJoin_eq_map (biomass : List SBioRegionRow) (prices : List SPriceRow)
    (hp : (prices.map sPriceKey).Nodup) :
    priceLeftJoin biomass prices = biomass.map (priceOne prices) := by
  induction biomass with
  | nil => rfl
  | cons br t ih =>
    have hone := filter_nil_or_single prices (priceKeyMatch br) sPriceKey
      (br.base.statecd, br.priceRegion.getD "", br.base.spclass, br.base.product)
      hp (fun pr _ hq => by
        unfold priceKeyMatch at hq
        simp only [Bool.and_eq_true, beq_iff_eq] at hq
        obtain ⟨⟨⟨h1, h2⟩, h3⟩, h4⟩ := hq
        simp [sPriceKey, h1, ← h2, h3, h4])
    rw [priceLeftJoin, List.flatMap_cons]
    rw [priceLeftJoin] at ih
    rw [ih]
    rcases hone with h | ⟨pr, h⟩ <;> simp [priceOne, h]

/-- Claim C1 (amended): assuming the price table has at most one row per
(state, price region, species bucket, product) key and the region mapping
has at most one row per (state, survey unit) key, every input biomass row
with product Pulpwood or Sawtimber appears in the output of the valuation
join exactly once and in input order, carrying its identifying fields and
volume unchanged; a row whose (state, survey unit) pair has no region
mapping entry is retained with a null price and a null value rather than
dropped, so matched plus unpriced rows equal the Pulpwood/Sawtimber input
row count. -/
theorem C1_join_completeness_amended (prices : List SPriceRow)
    (biomass : List SBioRow) (regions : List RegionMapRow)
    (hp : (prices.map sPriceKey).Nodup)
    (hm : (regions.map regionMapKey).Nodup) :
    List.Forall₂ (fun br out =>
        out.statecd = br.statecd ∧ out.unitcd = br.unitcd ∧ out.fips = br.fips ∧
        out.spcd = br.spcd ∧ out.spgrpcd = br.spgrpcd ∧ out.spclass = br.spclass ∧
        out.product = br.product ∧ out.volume = br.volume ∧
        ((∀ mr ∈ regions, regionKeyMatch br mr = false) →
          out.cuftprice = none ∧ out.value = none))
      (biomass.filter (fun br => isMerch br.product))
      (merge_price_biomass_data prices biomass regions) := by
  rw [merge_price_biomass_data, regionLeftJoin_eq_map biomass regions hm,
    List.filter_map]
  have hfc : biomass.filter ((fun r : SBioRegionRow => isMerch r.base.product) ∘ regionOne regions)
      = biomass.filter (fun br => isMerch br.product) :=
    List.filter_congr (fun br _ => by simp [Function.comp, regionOne_base])
  rw [hfc, priceLeftJoin_eq_map _ prices hp, List.map_map, List.forall₂_map_right_iff,
    List.forall₂_same]
  intro br hbr
  simp only [Function.comp]
  have hbase := regionOne_base regions br
  by_cases hnone : ∀ mr ∈ regions, regionKeyMatch br mr = false
  · have hrfilter : regions.filter (regionKeyMatch br) = [] :=
      List.filter_eq_nil_iff.mpr (fun mr hmr => by simp [hnone mr hmr])
    have hro : regionOne regions br = { base := br, priceRegion := none } := by
      unfold regionOne
      rw [hrfilter]
    have hpfilter : prices.filter (priceKeyMatch { base := br, priceRegion := none }) = [] :=
      List.filter_eq_nil_iff.mpr (fun pr _ => by simp [priceKeyMatch])
    have hpo : priceOne prices (regionOne regions br)
        = mkValuation { base := br, priceRegion := none } none := by
      rw [hro]
      unfold priceOne
      rw [hpfilter]
    rw [hpo]
    exact ⟨rfl, rfl, rfl, rfl, rfl, rfl, rfl, rfl, fun _ => ⟨rfl, rfl⟩⟩
  · unfold priceOne
    split
    · exact ⟨by simp [mkValuation, hbase], by simp [mkValuation, hbase],
        by simp [mkValuation, hbase], by simp [mkValuation, hbase],
        by simp [mkValuation, hbase], by simp [mkValuation, hbase],
        by simp [mkValuation, hbase], by simp [mkValuation, hbase],
        fun h => absurd h hnone⟩
    · exact ⟨by simp [mkValuation, hbase], by simp [mkValuation, hbase],
        by simp [mkValuation, hbase], by simp [mkValuation, hbase],
        by simp [mkValuation, hbase], by simp [mkValuation, hbase],
        by simp [mkValuation, hbase], by simp [mkValuation, hbase],
        fun h => absurd h hnone⟩

/-- Witness for C1 at concrete one-row inputs: a matched Pulpwood biomass
row passes through the join exactly once. -/
theorem C1_join_completeness_witness :
    ((([⟨"01", "AL", "01", "Pine", "Pulpwood", some 2⟩] : List SPriceRow).map sPriceKey).Nodup) ∧
    ((([⟨"01", "01", "01"⟩] : List RegionMapRow).map regionMapKey).Nodup) ∧
    List.Forall₂ (fun br out =>
        out.statecd = br.statecd ∧ out.unitcd = br.unitcd ∧ out.fips = br.fips ∧
        out.spcd = br.spcd ∧ out.spgrpcd = br.spgrpcd ∧ out.spclass = br.spclass ∧
        out.product = br.product ∧ out.volume = br.volume ∧
        ((∀ mr ∈ ([⟨"01", "01", "01"⟩] : List RegionMapRow), regionKeyMatch br mr = false) →
          out.cuftprice = none ∧ out.value = none))
      (([⟨"01", "01001", "01", 131, 2, "Pine", "Pulpwood", 500⟩] : List SBioRow).filter
        (fun br => isMerch br.product))
      (merge_price_biomass_data [⟨"01", "AL", "01", "Pine", "Pulpwood", some 2⟩]
        [⟨"01", "01001", "01", 131, 2, "Pine", "Pulpwood", 500⟩] [⟨"01", "01", "01"⟩]) :=
  ⟨by decide, by decide,
   C1_join_completeness_amended _ _ _ (by decide) (by decide)⟩

/-- Counterexample for C1 as stated: with a price table satisfying the
one-row-per-key assumption (here empty) but a region mapping that lists the
same (state, survey unit) under two price regions, the single Pulpwood
biomass row appears twice in the valuation join output, not exactly once. -/
theorem C1_duplicate_mapping_cex :
    ((([] : List SPriceRow)).map sPriceKey).Nodup ∧
    (c1cexBiomass.filter (fun br => isMerch br.product)).length = 1 ∧
    (merge_price_biomass_data [] c1cexBiomass c1cexRegions).length = 2 := by
  decide

/-- Helper: every output row of the price left merge is an mkValuation of
some input biomass row. -/
theorem mem_priceLeftJoin {r : SValuationRow} {bs : List SBioRegionRow}
    {prices : List SPriceRow} (hr : r ∈ priceLeftJoin bs prices) :
    ∃ br ∈ bs, ∃ price, r = mkValuation br price := by
  rw [priceLeftJoin, List.mem_flatMap] at hr
  obtain ⟨br, hbr, hmem⟩ := hr
  refine ⟨br, hbr, ?_⟩
  revert hmem
  split
  · intro hmem
    exact ⟨none, List.mem_singleton.mp hmem⟩
  · intro hmem
    obtain ⟨pr, _, hpr⟩ := List.mem_map.mp hmem
    exact ⟨pr.cuftPrice, hpr.symm⟩

/-- Claim C5 (amended): in the South valuation join, a biomass row matched
to no price row carries a null value in the final table, never the number
zero: a null price propagates to a null value.  (The Great Lakes price
normalizer, by contrast, fills product prices missing after its pivot with
the number 0, as the C5 counterexample shows.) -/
theorem C5_unmatched_null_value_amended (prices : List SPriceRow)
    (biomass : List SBioRow) (regions : List RegionMapRow) (r : SValuationRow)
    (hr : r ∈ merge_price_biomass_data prices biomass regions)
    (hnp : r.cuftprice = none) : r.value = none := by
  rw [merge_price_biomass_data] at hr
  obtain ⟨br, _, price, hval⟩ := mem_priceLeftJoin hr
  subst hval
  cases price with
  | none => rfl
  | some c => simp [mkValuation] at hnp

/-- Witness for C5 at concrete inputs: with no region mapping and no price
rows, the lone Pulpwood biomass row comes out with null price and null
value. -/
theorem C5_unmatched_null_value_witness :
    (⟨"01", "01", "01001", 131, 2, "Pine", "Pulpwood", 500, none, none⟩ : SValuationRow)
        ∈ merge_price_biomass_data []
          [⟨"01", "01001", "01", 131, 2, "Pine", "Pulpwood", 500⟩] [] ∧
    (⟨"01", "01", "01001", 131, 2, "Pine", "Pulpwood", 500, none, none⟩ : SValuationRow).value
        = none :=
  ⟨List.mem_singleton.mpr rfl,
   C5_unmatched_null_value_amended [] [⟨"01", "01001", "01", 131, 2, "Pine", "Pulpwood", 500⟩]
     [] _ (List.mem_singleton.mpr rfl) rfl⟩

/-- Claim C6 (amended): the South price normalizer maps raw price columns
with product abbreviation pre to product Pre-merchantable and keeps them in
its output (see the C6 counterexample); Pre-merchantable prices are
nonetheless excluded from the valuation: every row of the South valuation
join output has product Pulpwood or Sawtimber, so no Pre-merchantable price
row can reach the final table. -/
theorem C6_valuation_products_amended (prices : List SPriceRow)
    (biomass : List SBioRow) (regions : List RegionMapRow) (r : SValuationRow)
    (hr : r ∈ merge_price_biomass_data prices biomass regions) :
    r.product = "Pulpwood" ∨ r.product = "Sawtimber" := by
  rw [merge_price_biomass_data] at hr
  obtain ⟨br, hbr, price, hval⟩ := mem_priceLeftJoin hr
  have hmerch : isMerch br.base.product = true := (List.mem_filter.mp hbr).2
  rw [isMerch, Bool.or_eq_true, beq_iff_eq, beq_iff_eq] at hmerch
  subst hval
  simpa [mkValuation] using hmerch

/-- Witness for C6 at concrete inputs: the output row of the one-row join
has product Pulpwood or Sawtimber. -/
theorem C6_valuation_products_witness :
    (⟨"01", "01", "01001", 131, 2, "Pine", "Pulpwood", 500, none, none⟩ : SValuationRow).product
        = "Pulpwood" ∨
    (⟨"01", "01", "01001", 131, 2, "Pine", "Pulpwood", 500, none, none⟩ : SValuationRow).product
        = "Sawtimber" :=
  C6_valuation_products_amended []
    [⟨"01", "01001", "01", 131, 2, "Pine", "Pulpwood", 500⟩] [] _
    (List.mem_singleton.mpr rfl)

/-- Counterexample for C6 as stated: a raw wide South price table with one
pre-prefixed value column (preal1) yields a normalized output row with
product Pre-merchantable; the normalizer does not exclude such rows. -/
theorem C6_premerch_retained_cex :
    (load_south_stumpage_prices ⟨[⟨2020, "pine", "x"⟩], [("preal1", [some 10])]⟩).map
        (fun r => (r.product, r.spclass, r.statecd, r.stateAbbr, r.priceRegion))
      = [("Pre-merchantable", "Pine", "01", "AL", "01")] := by
  decide

/-- Claim C4: the Great Lakes fallback fill is reached with a price table
whose species column is named species, not spclass, so the groupby of
greatlakes_assets.py line 339 raises KeyError spclass for every input:
no output table is produced, contradicting the claimed no-exception mean
fallback.  The claim describes the documented intent; the code is a slip. -/
theorem C4_gl_fallback_keyerror (prices : List GLPriceRow)
    (biomass : List GLBioRow) (regions : List RegionMapRow) :
    merge_price_biomass_data_gl prices biomass regions = .error "KeyError: spclass" := by
  simp [merge_price_biomass_data_gl, glPriceColumns]

/-- Claim C9: the valuation computation is deterministic: two runs of the
South and Great Lakes merge_price_biomass_data on equal inputs produce
identical outputs.  The embedding is a pure function of its inputs; its
only iteration orders are list order and sorted groupby key order, matching
the order-deterministic pandas operations of the source (the fallback loop
of the Great Lakes version iterates rows in frame order, not over a dict). -/
theorem C9_deterministic (p p2 : List SPriceRow) (b b2 : List SBioRow)
    (m m2 : List RegionMapRow) (gp gp2 : List GLPriceRow)
    (gb gb2 : List GLBioRow) (gm gm2 : List RegionMapRow)
    (h1 : p = p2) (h2 : b = b2) (h3 : m = m2)
    (h4 : gp = gp2) (h5 : gb = gb2) (h6 : gm = gm2) :
    merge_price_biomass_data p b m = merge_price_biomass_data p2 b2 m2 ∧
    merge_price_biomass_data_gl gp gb gm = merge_price_biomass_data_gl gp2 gb2 gm2 := by
  subst h1 h2 h3 h4 h5 h6
  exact ⟨rfl, rfl⟩

/-- Witness for C9 at concrete inputs. -/
theorem C9_deterministic_witness :
    merge_price_biomass_data [] c1cexBiomass c1cexRegions
      = merge_price_biomass_data [] c1cexBiomass c1cexRegions ∧
    merge_price_biomass_data_gl [] [] [] = merge_price_biomass_data_gl [] [] [] :=
  C9_deterministic [] [] c1cexBiomass c1cexBiomass c1cexRegions c1cexRegions
    [] [] [] [] [] [] rfl rfl rfl rfl rfl rfl

/-- Counterexample for C5 as stated: the Great Lakes price normalizer
replaces a price missing after its pivot with the number 0.  On an input
holding a Pulpwood price for species a and a Sawtimber price only for
species b, the output contains a species a Sawtimber row priced 0 even
though no input row prices species a Sawtimber. -/
theorem C5_gl_zero_fill_cex :
    (⟨"27", "01", "a", "Sawtimber", 0⟩ : GLPriceRow) ∈
      ((load_gl_stumpage_prices glCexRows).toOption.getD []) ∧
    glCexRows.all (fun r => !(r.species == "a" && r.product == "Sawtimber")) = true := by
  constructor
  · have h : load_gl_stumpage_prices glCexRows
        = .ok [⟨"27", "01", "a", "Pulpwood", qmean [qmean [5]]⟩,
               ⟨"27", "01", "b", "Pulpwood", qmean [0]⟩,
               ⟨"27", "01", "a", "Sawtimber", qmean [0]⟩,
               ⟨"27", "01", "b", "Sawtimber", qmean [qmean [6]]⟩] := rfl
    have h0 : qmean [(0 : ℚ)] = 0 := by norm_num [qmean]
    rw [h, h0]
    exact List.mem_cons_of_mem _ (List.mem_cons_of_mem _ (List.mem_cons_self _ _))
  · decide

/-- Helper: takeWhile never lengthens a list. -/
theorem length_takeWhile_le {α : Type} (p : α → Bool) (l : List α) :
    (l.takeWhile p).length ≤ l.length := by
  induction l with
  | nil => simp
  | cons a t ih =>
    rw [List.takeWhile_cons]
    split
    · simpa using Nat.succ_le_succ ih
    · simp

/-- Helper: only 2-character abbreviations have a state FIPS code. -/
theorem glStateFips_length {s c : String} (h : glStateFips s = some c) :
    s.length = 2 := by
  unfold glStateFips at h
  split_ifs at h with h1 h2 h3
  · rw [h1]; decide
  · rw [h2]; decide
  · rw [h3]; decide

/-- Helper: a raw Great Lakes row whose annotated statecd and priceRegion
keys are both non-null has a region label longer than 2 characters: the
state abbreviation before the hyphen must be 2 characters to be in the
FIPS dict, and the non-null price region requires a hyphen after it. -/
theorem glAnnotate_valid_length {x : GLRawRow}
    (hs : (glAnnotate x).statecd.isSome = true)
    (hr : (glAnnotate x).priceRegion.isSome = true) :
    2 < x.region.length := by
  dsimp only [glAnnotate] at hs hr
  rw [Option.isSome_iff_exists] at hs
  obtain ⟨c, hc⟩ := hs
  have hpre : (x.region.takeWhile (fun ch => ch != '-')).length = 2 :=
    glStateFips_length hc
  have hle : (x.region.takeWhile (fun ch => ch != '-')).length ≤ x.region.length :=
    length_takeWhile_le _ _
  by_cases hlen : (x.region.takeWhile (fun ch => ch != '-')).length = x.region.length
  · rw [if_pos hlen] at hr
    simp at hr
  · omega

/-- Helper: the rows reaching the first Great Lakes groupby are the same
whether or not the input is first restricted to rows with a region label
longer than 2 characters and a Stumpage market: the code filter drops
labels of length exactly 2, and rows with shorter labels cannot form a
valid (statecd, priceRegion) group key, so the groupby drops them. -/
theorem glValidRows_filter (l : List GLRawRow) :
    glValidRows l = glValidRows (l.filter glGoodRow) := by
  simp only [glValidRows, List.filter_map, List.filter_filter]
  congr 1
  apply List.filter_congr
  intro a _
  simp only [Function.comp]
  by_cases hv : ((glAnnotate a).statecd.isSome && (glAnnotate a).priceRegion.isSome) = true
  · have h2 : 2 < a.region.length := by
      rw [Bool.and_eq_true] at hv
      exact glAnnotate_valid_length hv.1 hv.2
    have hne : (a.region.length != 2) = true := by
      simp only [bne_iff_ne]
      omega
    simp [glGoodRow, hv, hne, h2]
  · rw [Bool.not_eq_true] at hv
    simp [hv]

/-- Claim C7: every output row of the Great Lakes price normalizer derives
only from input rows whose region label is longer than 2 characters and
whose market is Stumpage: restricting the input to exactly those rows
leaves the output unchanged, so no 2-character-or-shorter region row and no
non-Stumpage row contributes to any output price. -/
theorem C7_gl_price_filter (l : List GLRawRow) :
    load_gl_stumpage_prices l = load_gl_stumpage_prices (l.filter glGoodRow) := by
  unfold load_gl_stumpage_prices
  rw [glValidRows_filter]

/-- Helper: filtering a nodup list for one of its members keeps exactly that
member. -/
theorem filter_beq_of_nodup {α : Type} [BEq α] [LawfulBEq α] {l : List α} {a : α}
    (hnd : l.Nodup) (ha : a ∈ l) : l.filter (fun x => x == a) = [a] := by
  induction l with
  | nil => cases ha
  | cons b t ih =>
    rw [List.nodup_cons] at hnd
    rcases List.mem_cons.mp ha with hba | hat
    · subst hba
      have ht : t.filter (fun x => x == a) = [] := by
        rw [List.filter_eq_nil_iff]
        intro y hy hq
        rw [beq_iff_eq] at hq
        exact hnd.1 (hq ▸ hy)
      simp [List.filter_cons, ht]
    · have hb : (b == a) = false := by
        rw [Bool.eq_false_iff]
        intro hba
        rw [beq_iff_eq] at hba
        exact hnd.1 (hba ▸ hat)
      simp [List.filter_cons, hb, ih hnd.2 hat]

/-- Helper: filtering a list on the key of one of its members keeps exactly
that member when the key map is injective on the list. -/
theorem filter_key_of_nodup_map {α β : Type} [BEq β] [LawfulBEq β] {l : List α}
    {f : α → β} {x : α} (hnd : (l.map f).Nodup) (hx : x ∈ l) :
    l.filter (fun y => f y == f x) = [x] := by
  induction l with
  | nil => cases hx
  | cons b t ih =>
    rw [List.map_cons, List.nodup_cons] at hnd
    rcases List.mem_cons.mp hx with hbx | hxt
    · subst hbx
      have ht : t.filter (fun y => f y == f x) = [] := by
        rw [List.filter_eq_nil_iff]
        intro y hy hq
        rw [beq_iff_eq] at hq
        exact hnd.1 (hq ▸ List.mem_map_of_mem f hy)
      simp [List.filter_cons, ht]
    · have hb : (f b == f x) = false := by
        rw [Bool.eq_false_iff]
        intro hfb
        rw [beq_iff_eq] at hfb
        exact hnd.1 (hfb ▸ List.mem_map_of_mem f hxt)
      simp [List.filter_cons, hb, ih hnd.2 hxt]

/-- Helper: filtering a mapped nodup key list for rows built from one of
the keys keeps exactly the row built from that key. -/
theorem filter_map_eq_single {α β : Type} [BEq β] [LawfulBEq β] (keys : List β)
    (k : β) (hnd : keys.Nodup) (hk : k ∈ keys) (f : β → α) (p : α → Bool)
    (hp : ∀ b, p (f b) = (b == k)) :
    (keys.map f).filter p = [f k] := by
  rw [List.filter_map]
  have hpf : keys.filter (p ∘ f) = [k] := by
    have hfe : (p ∘ f) = fun b => b == k := funext (fun b => hp b)
    rw [hfe]
    exact filter_beq_of_nodup hnd hk
  rw [hpf]
  rfl

/-- Helper: mean of a one-element list. -/
theorem rmean_singleton (c : ℝ) : rmean [c] = c := by
  simp [rmean]

/-- Claim C2: for a normalized price table (at most one Pine Pulpwood row
per (state, state abbreviation, price region) key), every (state, price
region) having a Pine Pulpwood price P gets exactly four output rows from
calculate_premerchantable_prices, one per size class 0001, 0002, 0003,
0004, whose prices equal P / (1 + 0.05) ^ (15 - age) with age 0.722, 2.736,
7.5 and 12.264 respectively (the output stacks the 0004 block first). -/
theorem C2_premerch_four_rows (l : List PmPriceRow) (r : PmPriceRow)
    (hnd : ((l.filter isPinePulpwood).map pmKey).Nodup)
    (hr : r ∈ l) (hpp : isPinePulpwood r = true) :
    ((calculate_premerchantable_prices l).filter
        (fun o => (o.statecd, o.stateAbbr, o.priceRegion) == pmKey r)).map
        (fun o => (o.sizeclass, o.cuftPrice))
      = [("0004", premerchCuftPrice r.cuftPrice 12.264),
         ("0003", premerchCuftPrice r.cuftPrice 7.5),
         ("0002", premerchCuftPrice r.cuftPrice 2.736),
         ("0001", premerchCuftPrice r.cuftPrice 0.722)] := by
  have hfl : r ∈ pmFiltered l := List.mem_filter.mpr ⟨hr, hpp⟩
  have hperm : (pmKeys l).Perm ((pmFiltered l).map pmKey).dedup :=
    List.perm_insertionSort _ _
  have hndkeys : (pmKeys l).Nodup :=
    hperm.nodup_iff.mpr (List.nodup_dedup _)
  have hkmem : pmKey r ∈ pmKeys l :=
    hperm.mem_iff.mpr (List.mem_dedup.mpr (List.mem_map_of_mem pmKey hfl))
  have hgroup : (pmFiltered l).filter (fun y => pmKey y == pmKey r) = [r] :=
    filter_key_of_nodup_map hnd hfl
  have hblock : ∀ sa : String × ℝ,
      (((pmKeys l).map (pmMkRow l sa)).filter
        (fun o => (o.statecd, o.stateAbbr, o.priceRegion) == pmKey r))
        = [pmMkRow l sa (pmKey r)] :=
    fun sa => filter_map_eq_single (pmKeys l) (pmKey r) hndkeys hkmem
      (pmMkRow l sa) _ (fun b => rfl)
  rw [calculate_premerchantable_prices, List.filter_flatMap]
  simp only [premerchAges, List.flatMap_cons, List.flatMap_nil, List.append_nil,
    List.filter_append, hblock]
  simp [pmMkRow, hgroup, rmean_singleton]

/-- Witness for C2 at a concrete one-row price table with Pine Pulpwood
price 2. -/
theorem C2_premerch_four_rows_witness :
    ((([⟨"01", "AL", "01", "Pine", "Pulpwood", 2⟩] : List PmPriceRow).filter
        isPinePulpwood).map pmKey).Nodup ∧
    isPinePulpwood (⟨"01", "AL", "01", "Pine", "Pulpwood", 2⟩ : PmPriceRow) = true ∧
    ((calculate_premerchantable_prices [⟨"01", "AL", "01", "Pine", "Pulpwood", 2⟩]).filter
        (fun o => (o.statecd, o.stateAbbr, o.priceRegion)
          == pmKey (⟨"01", "AL", "01", "Pine", "Pulpwood", 2⟩ : PmPriceRow))).map
        (fun o => (o.sizeclass, o.cuftPrice))
      = [("0004", premerchCuftPrice 2 12.264),
         ("0003", premerchCuftPrice 2 7.5),
         ("0002", premerchCuftPrice 2 2.736),
         ("0001", premerchCuftPrice 2 0.722)] :=
  ⟨by decide, by decide,
   C2_premerch_four_rows [⟨"01", "AL", "01", "Pine", "Pulpwood", 2⟩]
     ⟨"01", "AL", "01", "Pine", "Pulpwood", 2⟩ (by decide)
     (List.mem_singleton.mpr rfl) (by decide)⟩

/-- Claim C3: for every pulpwood price P above 0, the synthesized
pre-merchantable prices strictly increase with the assumed age of the size
class: price at age 0.722 is below 2.736, below 7.5, below 12.264 (present
value rises as the class nears the merchantable age of 15). -/
theorem C3_premerch_monotonic (P : ℝ) (hP : 0 < P) :
    premerchCuftPrice P 0.722 < premerchCuftPrice P 2.736 ∧
    premerchCuftPrice P 2.736 < premerchCuftPrice P 7.5 ∧
    premerchCuftPrice P 7.5 < premerchCuftPrice P 12.264 := by
  have hbase : (1 : ℝ) < 1 + 0.05 := by norm_num
  have key : ∀ a b : ℝ, a < b → premerchCuftPrice P a < premerchCuftPrice P b := by
    intro a b hab
    unfold premerchCuftPrice
    have hlt : (1 + 0.05 : ℝ) ^ ((15 : ℝ) - b) < (1 + 0.05 : ℝ) ^ ((15 : ℝ) - a) :=
      (Real.rpow_lt_rpow_left_iff hbase).mpr (by linarith)
    have hpos : (0 : ℝ) < (1 + 0.05 : ℝ) ^ ((15 : ℝ) - b) :=
      Real.rpow_pos_of_pos (by norm_num) _
    exact div_lt_div_of_pos_left hP hpos hlt
  exact ⟨key _ _ (by norm_num), key _ _ (by norm_num), key _ _ (by norm_num)⟩

/-- Witness for C3 at the price 1. -/
theorem C3_premerch_monotonic_witness :
    premerchCuftPrice 1 0.722 < premerchCuftPrice 1 2.736 ∧
    premerchCuftPrice 1 2.736 < premerchCuftPrice 1 7.5 ∧
    premerchCuftPrice 1 7.5 < premerchCuftPrice 1 12.264 :=
  C3_premerch_monotonic 1 one_pos
